import Mathlib

/-!
# AetherVM: verification of the memory subsystem and CPU core

Shallow embedding of the AetherVM fetch/decode/execute engine
(`src/hardware/cpu.rs`, `src/hardware/memory.rs`, `src/hardware/exceptions.rs`).

Machine integers (`u64`, `usize`) are modelled as `Nat`, with `% 2^64`
written explicitly where the Rust code wraps.  The physical byte store is
the source's `Vec<u8>`, modelled as a `List Nat` of bytes: indexing at or
past the vector's length is a Rust panic, which the embedding surfaces as
`none` (for the memory primitives) and as `StepResult.panic` (for one
CPU step).  Note that `AVMMemory::new` builds the vector with
`Vec::with_capacity(1073741824)`, which reserves capacity but leaves the
length at 0.  Fallible operations return `Except Exception _` inside
`Option`, `none` standing for a panic.
-/

namespace AetherVM

/-- `Exception` enum from `exceptions.rs`. -/
inductive Exception where
  | AddressNotInMemoryBounds (addr : Nat)
  | IllegalSizeArgument (size : Nat)
  | InstructionAccessFaultOnAddress (addr : Nat)
  | UnexpectedCondition (cond : Nat)
  | UnexpectedOpcode (opcode : Nat)
deriving DecidableEq, Repr

/-- `MEMORY_START_ADDRESS` from `memory.rs`. -/
def MEMORY_START_ADDRESS : Nat := 0x10000000

/-- `MEMORY_SIZE` from `memory.rs`. -/
def MEMORY_SIZE : Nat := 0x40000000

/-- `AVMMemory` from `memory.rs`: the physical byte store, a `Vec<u8>`
addressed by local index (`addr - MEMORY_START_ADDRESS`).  Modelled as a
`List Nat` of byte values so that the vector's length — and the panic on
indexing at or past it — is part of the model. -/
structure AVMMemory where
  data : List Nat

/-- `AVMMemory::new`: `Vec::with_capacity(1073741824)` reserves capacity
for 1 GiB but produces a vector of length 0 — the fresh store holds no
bytes at all. -/
def AVMMemory.new : AVMMemory := ⟨[]⟩

/-- One `self.data[index] = v` store: panics (`none`) unless the index is
below the vector's length. -/
def setByte (l : List Nat) (i v : Nat) : Option (List Nat) :=
  if i < l.length then some (l.set i v) else none

/-- Sequential byte stores
`self.data[i] = v0; self.data[i+1] = v1; …`, stopping at the first
out-of-bounds panic. -/
def setBytes (l : List Nat) (i : Nat) (vs : List Nat) : Option (List Nat) :=
  match vs with
  | [] => some l
  | v :: rest =>
    match setByte l i v with
    | some l2 => setBytes l2 (i + 1) rest
    | none => none

/-- `AVMMemory::load_byte` (`none` = index panic). -/
def AVMMemory.load_byte (m : AVMMemory) (addr : Nat) : Option Nat :=
  let index := addr - MEMORY_START_ADDRESS
  m.data[index]?

/-- `AVMMemory::load_short` (little-endian 16-bit read). -/
def AVMMemory.load_short (m : AVMMemory) (addr : Nat) : Option Nat :=
  let index := addr - MEMORY_START_ADDRESS
  match m.data[index]?, m.data[index + 1]? with
  | some b0, some b1 => some (b0 ||| (b1 <<< 8))
  | _, _ => none

/-- `AVMMemory::int_load_util` (little-endian 32-bit assembly). -/
def AVMMemory.int_load_util (m : AVMMemory) (index : Nat) : Option Nat :=
  match m.data[index]?, m.data[index + 1]?, m.data[index + 2]?,
      m.data[index + 3]? with
  | some b0, some b1, some b2, some b3 =>
    some (b0 ||| (b1 <<< 8) ||| (b2 <<< 16) ||| (b3 <<< 24))
  | _, _, _, _ => none

/-- `AVMMemory::load_int` (little-endian 32-bit read). -/
def AVMMemory.load_int (m : AVMMemory) (addr : Nat) : Option Nat :=
  let index := addr - MEMORY_START_ADDRESS
  m.int_load_util index

/-- `AVMMemory::load_long` (little-endian 64-bit read). -/
def AVMMemory.load_long (m : AVMMemory) (addr : Nat) : Option Nat :=
  let index := addr - MEMORY_START_ADDRESS
  match m.int_load_util index, m.data[index + 4]?, m.data[index + 5]?,
      m.data[index + 6]?, m.data[index + 7]? with
  | some lo, some b4, some b5, some b6, some b7 =>
    some (lo ||| (b4 <<< 32) ||| (b5 <<< 40) ||| (b6 <<< 48) ||| (b7 <<< 56))
  | _, _, _, _, _ => none

/-- `AVMMemory::write_byte`: stores `val as u8`, returns the local index. -/
def AVMMemory.write_byte (m : AVMMemory) (addr val : Nat) :
    Option (AVMMemory × Nat) :=
  let index := addr - MEMORY_START_ADDRESS
  match setBytes m.data index [val % 256] with
  | some d => some (⟨d⟩, index)
  | none => none

/-- `AVMMemory::write_short` (little-endian 16-bit write). -/
def AVMMemory.write_short (m : AVMMemory) (addr val : Nat) :
    Option (AVMMemory × Nat) :=
  let index := addr - MEMORY_START_ADDRESS
  match setBytes m.data index [val &&& 0xFF, (val >>> 8) &&& 0xFF] with
  | some d => some (⟨d⟩, index)
  | none => none

/-- `AVMMemory::write_int` (little-endian 32-bit write). -/
def AVMMemory.write_int (m : AVMMemory) (addr val : Nat) :
    Option (AVMMemory × Nat) :=
  let index := addr - MEMORY_START_ADDRESS
  match setBytes m.data index
      [val &&& 0xFF, (val >>> 8) &&& 0xFF, (val >>> 16) &&& 0xFF,
       (val >>> 24) &&& 0xFF] with
  | some d => some (⟨d⟩, index)
  | none => none

/-- `AVMMemory::write_long` (little-endian 64-bit write). -/
def AVMMemory.write_long (m : AVMMemory) (addr val : Nat) :
    Option (AVMMemory × Nat) :=
  let index := addr - MEMORY_START_ADDRESS
  match setBytes m.data index
      [val &&& 0xFF, (val >>> 8) &&& 0xFF, (val >>> 16) &&& 0xFF,
       (val >>> 24) &&& 0xFF, (val >>> 32) &&& 0xFF, (val >>> 40) &&& 0xFF,
       (val >>> 48) &&& 0xFF, (val >>> 56) &&& 0xFF] with
  | some d => some (⟨d⟩, index)
  | none => none

/-- `impl AVMDevice for AVMMemory`, `write`: dispatch on the size
argument.  The size check precedes every data access. -/
def AVMMemory.write (m : AVMMemory) (addr data size : Nat) :
    Option (Except Exception (AVMMemory × Nat)) :=
  if size = 8 then (m.write_byte addr data).map .ok
  else if size = 16 then (m.write_short addr data).map .ok
  else if size = 32 then (m.write_int addr data).map .ok
  else if size = 64 then (m.write_long addr data).map .ok
  else some (.error (.IllegalSizeArgument size))

/-- `impl AVMDevice for AVMMemory`, `read`: dispatch on the size
argument. -/
def AVMMemory.read (m : AVMMemory) (addr size : Nat) :
    Option (Except Exception Nat) :=
  if size = 8 then (m.load_byte addr).map .ok
  else if size = 16 then (m.load_short addr).map .ok
  else if size = 32 then (m.load_int addr).map .ok
  else if size = 64 then (m.load_long addr).map .ok
  else some (.error (.IllegalSizeArgument size))

/-- `AVMBus` from `memory.rs`: gatekeeper owning the memory. -/
structure AVMBus where
  memory : AVMMemory

/-- `AVMBus::new`. -/
def AVMBus.new : AVMBus := ⟨AVMMemory.new⟩

/-- `impl AVMDevice for AVMBus`, `write`: bounds check, then delegate. -/
def AVMBus.write (b : AVMBus) (addr data size : Nat) :
    Option (Except Exception (AVMBus × Nat)) :=
  if addr < MEMORY_START_ADDRESS ∨ addr > MEMORY_START_ADDRESS + MEMORY_SIZE then
    some (.error (.AddressNotInMemoryBounds addr))
  else
    match b.memory.write addr data size with
    | some (.ok (m, off)) => some (.ok (⟨m⟩, off))
    | some (.error e) => some (.error e)
    | none => none

/-- `impl AVMDevice for AVMBus`, `read`: bounds check, then delegate. -/
def AVMBus.read (b : AVMBus) (addr size : Nat) :
    Option (Except Exception Nat) :=
  if addr < MEMORY_START_ADDRESS ∨ addr > MEMORY_START_ADDRESS + MEMORY_SIZE then
    some (.error (.AddressNotInMemoryBounds addr))
  else
    b.memory.read addr size

/-- `AVMCpu` from `cpu.rs`: bus, 32-slot register file (a `[u64; 32]`
array, modelled as a `List Nat` so that an out-of-range index is
observable), and the instruction pointer. -/
structure AVMCpu where
  bus : AVMBus
  registers : List Nat
  ip : Nat

/-- `AVMCpu::new`: all registers 0 except slots 12 and 13 (stack base /
stack pointer), IP at the start of the memory window. -/
def AVMCpu.new : AVMCpu :=
  { bus := AVMBus.new
    registers :=
      ((List.replicate 32 0).set 12 (MEMORY_START_ADDRESS + MEMORY_SIZE)).set 13
        (MEMORY_START_ADDRESS + MEMORY_SIZE)
    ip := MEMORY_START_ADDRESS }

/-- Outcome of one `execute_instr` call.  `ok`/`err` carry the CPU state
after the call (the handlers never mutate state before raising an error,
which this embedding makes explicit by always returning the entry state
in `err`); `halted` models `process::exit`; `panic` models a Rust panic
(out-of-bounds register or memory index, or division by zero). -/
inductive StepResult where
  | ok (cpu : AVMCpu)
  | err (e : Exception) (cpu : AVMCpu)
  | halted (code : Nat)
  | panic

/-- Opcode field: top 16 bits of the instruction word. -/
def operationOf (instr : Nat) : Nat := instr >>> 48

/-- Compact field `cda1`: bits [47:40]. -/
def cda1 (instr : Nat) : Nat := ((instr >>> 32) &&& 0x0000FF00) >>> 8

/-- Compact field `cda2`: bits [39:32]. -/
def cda2 (instr : Nat) : Nat := (instr >>> 32) &&& 0x000000FF

/-- Compact field `cda3`: bits [31:24]. -/
def cda3 (instr : Nat) : Nat := (instr >>> 24) &&& 0x00000000FF

/-- Extended field `eda1`: bits [47:32]. -/
def eda1 (instr : Nat) : Nat := (instr >>> 32) &&& 0x0000FFFF

/-- Extended field `eda2`: bits [31:16]. -/
def eda2 (instr : Nat) : Nat := (instr >>> 16) &&& 0x00000000FFFF

/-- Extended field `eda3`: bits [15:0]. -/
def eda3 (instr : Nat) : Nat := instr &&& 0x000000000000FFFF

/-- Field `ota`: low 32 bits (extracted but unused by every handler). -/
def ota (instr : Nat) : Nat := instr &&& 0x00000000FFFFFFFF

/-- Wrapping 64-bit addition (`u64::wrapping_add`). -/
def wrapping_add64 (a b : Nat) : Nat := (a + b) % 2 ^ 64

/-- Wrapping 64-bit subtraction (`u64::wrapping_sub`). -/
def wrapping_sub64 (a b : Nat) : Nat := (a + (2 ^ 64 - b % 2 ^ 64)) % 2 ^ 64

/-- Wrapping 64-bit multiplication (`u64::wrapping_mul`). -/
def wrapping_mul64 (a b : Nat) : Nat := a * b % 2 ^ 64

/-- `AVMCpu::execute_instr`: decode the packed 64-bit word and dispatch
on the opcode, exactly following the `match` in `cpu.rs`. -/
def execute_instr (cpu : AVMCpu) (instr : Nat) : StepResult :=
  let operation := operationOf instr
  if operation = 0xCD00 then -- [regFrom] $move [regTo]
    let reg_from := cda1 instr
    let reg_to := cda2 instr
    match cpu.registers[reg_from]? with
    | none => .panic
    | some v =>
      if reg_to < cpu.registers.length then
        .ok { cpu with registers := cpu.registers.set reg_to v, ip := cpu.ip + 1 }
      else .panic
  else if operation = 0xCD01 then -- [reg] $set [value]
    let reg := cda1 instr
    let value := eda2 instr ||| eda3 instr ||| (eda1 instr &&& 0xFF)
    if reg < cpu.registers.length then
      .ok { cpu with registers := cpu.registers.set reg value, ip := cpu.ip + 1 }
    else .panic
  else if operation = 0xCF00 then -- $jmp [address]
    let address := eda1 instr ||| eda2 instr ||| eda3 instr
    .ok { cpu with ip := address }
  else if operation = 0xCF01 then -- [reg1] $jmc [cond] [reg2]
    let address := (eda1 instr ||| eda3 instr ||| eda2 instr) &&& 0x000FFFFFFFFF
    let condition := cda1 instr >>> 4
    let reg1 := cda1 instr &&& 0x0F
    let reg2 := cda2 instr >>> 4
    if condition = 0xA then
      match cpu.registers[reg1]?, cpu.registers[reg2]? with
      | some v1, some v2 =>
        if v1 > v2 then .ok { cpu with ip := address } else .ok cpu
      | _, _ => .panic
    else if condition = 0xB then
      match cpu.registers[reg1]?, cpu.registers[reg2]? with
      | some v1, some v2 =>
        if v1 < v2 then .ok { cpu with ip := address } else .ok cpu
      | _, _ => .panic
    else if condition = 0xC then
      match cpu.registers[reg1]?, cpu.registers[reg2]? with
      | some v1, some v2 =>
        if v1 = v2 then .ok { cpu with ip := address } else .ok cpu
      | _, _ => .panic
    else if condition = 0xD then
      match cpu.registers[reg1]?, cpu.registers[reg2]? with
      | some v1, some v2 =>
        if v1 ≥ v2 then .ok { cpu with ip := address } else .ok cpu
      | _, _ => .panic
    else if condition = 0xE then
      match cpu.registers[reg1]?, cpu.registers[reg2]? with
      | some v1, some v2 =>
        if v1 ≤ v2 then .ok { cpu with ip := address } else .ok cpu
      | _, _ => .panic
    else
      .err (.UnexpectedCondition condition) cpu
  else if operation = 0xCD02 then -- [reg1] $add [reg2] [resReg]
    let reg1 := cda1 instr
    let reg2 := cda2 instr
    let res_reg := cda3 instr
    match cpu.registers[reg1]?, cpu.registers[reg2]? with
    | some v1, some v2 =>
      if res_reg < cpu.registers.length then
        .ok { cpu with registers := cpu.registers.set res_reg (wrapping_add64 v1 v2),
                       ip := cpu.ip + 1 }
      else .panic
    | _, _ => .panic
  else if operation = 0xCD03 then -- [reg1] $sub [reg2] [resReg]
    let reg1 := cda1 instr
    let reg2 := cda2 instr
    let res_reg := cda3 instr
    match cpu.registers[reg1]?, cpu.registers[reg2]? with
    | some v1, some v2 =>
      if res_reg < cpu.registers.length then
        .ok { cpu with registers := cpu.registers.set res_reg (wrapping_sub64 v1 v2),
                       ip := cpu.ip + 1 }
      else .panic
    | _, _ => .panic
  else if operation = 0xCD04 then -- [reg1] $mul [reg2] [resReg]
    let reg1 := cda1 instr
    let reg2 := cda2 instr
    let res_reg := cda3 instr
    match cpu.registers[reg1]?, cpu.registers[reg2]? with
    | some v1, some v2 =>
      if res_reg < cpu.registers.length then
        .ok { cpu with registers := cpu.registers.set res_reg (wrapping_mul64 v1 v2),
                       ip := cpu.ip + 1 }
      else .panic
    | _, _ => .panic
  else if operation = 0xCD05 then -- [reg1] $div [reg2] [resReg]
    let reg1 := cda1 instr
    let reg2 := cda2 instr
    let res_reg := cda3 instr
    match cpu.registers[reg1]?, cpu.registers[reg2]? with
    | some v1, some v2 =>
      if v2 = 0 then .panic -- `wrapping_div` panics on a zero divisor
      else if res_reg < cpu.registers.length then
        .ok { cpu with registers := cpu.registers.set res_reg (v1 / v2),
                       ip := cpu.ip + 1 }
      else .panic
    | _, _ => .panic
  else if operation = 0xCD06 then -- [address] $move [reg]  (load)
    let address := eda2 instr ||| eda3 instr
    let reg := cda1 instr
    let size := cda2 instr
    match cpu.bus.read address size with
    | some (.ok val) =>
      if reg < cpu.registers.length then
        .ok { cpu with registers := cpu.registers.set reg val, ip := cpu.ip + 1 }
      else .panic
    | some (.error _) => .err (.IllegalSizeArgument size) cpu
    | none => .panic
  else if operation = 0xCD07 then -- [reg] $move [address]  (store)
    let address := eda2 instr ||| eda3 instr
    let reg := cda1 instr
    let size := cda2 instr
    match cpu.registers[reg]? with
    | none => .panic
    | some v =>
      match cpu.bus.write address v size with
      | some (.ok (bus, _)) => .ok { cpu with bus := bus, ip := cpu.ip + 1 }
      | some (.error _) => .err (.IllegalSizeArgument size) cpu
      | none => .panic
  else if operation = 0xFFFF then -- $halt
    .halted 0
  else if operation = 0xFFFA then -- $exit [code] / $quit [code]
    .halted (cda1 instr)
  else
    .err (.UnexpectedOpcode operation) cpu

/-- `AVMCpu::load_instr`: fetch 64 bits at IP, translating any bus fault
into `InstructionAccessFaultOnAddress(ip)`; a panic propagates. -/
def load_instr (cpu : AVMCpu) : Option (Except Exception Nat) :=
  match cpu.bus.read cpu.ip 64 with
  | some (.ok instr) => some (.ok instr)
  | some (.error _) => some (.error (.InstructionAccessFaultOnAddress cpu.ip))
  | none => none

/-- The opcodes with a defined handler in `execute_instr` (the sparse
16-bit table of `cpu.rs`). -/
def definedOpcodes : List Nat :=
  [0xCD00, 0xCD01, 0xCF00, 0xCF01, 0xCD02, 0xCD03, 0xCD04, 0xCD05,
   0xCD06, 0xCD07, 0xFFFF, 0xFFFA]

/-- C2: for every address `a` below `MEMORY_START_ADDRESS` or above
`MEMORY_START_ADDRESS + MEMORY_SIZE`, `Bus.read` and `Bus.write` fail with
`AddressNotInMemoryBounds(a)` and Memory is left untouched (the error is
returned before any memory access); the inclusive upper bound means the
address `MEMORY_START_ADDRESS + MEMORY_SIZE` passes the Bus check and both
calls are delegated to Memory. -/
theorem C2_bus_bounds (b : AVMBus) (a v w : Nat)
    (h : a < MEMORY_START_ADDRESS ∨ a > MEMORY_START_ADDRESS + MEMORY_SIZE) :
    b.read a w = some (.error (.AddressNotInMemoryBounds a)) ∧
    b.write a v w = some (.error (.AddressNotInMemoryBounds a)) ∧
    b.read (MEMORY_START_ADDRESS + MEMORY_SIZE) w
      = b.memory.read (MEMORY_START_ADDRESS + MEMORY_SIZE) w ∧
    b.write (MEMORY_START_ADDRESS + MEMORY_SIZE) v w
      = (b.memory.write (MEMORY_START_ADDRESS + MEMORY_SIZE) v w).map
          (Except.map fun p => (⟨p.1⟩, p.2)) := by
  have hbnd : ¬(MEMORY_START_ADDRESS + MEMORY_SIZE < MEMORY_START_ADDRESS ∨
      MEMORY_START_ADDRESS + MEMORY_SIZE > MEMORY_START_ADDRESS + MEMORY_SIZE) := by
    simp
  refine ⟨?_, ?_, ?_, ?_⟩
  · rw [AVMBus.read, if_pos h]
  · rw [AVMBus.write, if_pos h]
  · rw [AVMBus.read, if_neg hbnd]
  · rw [AVMBus.write, if_neg hbnd]
    cases hw : b.memory.write (MEMORY_START_ADDRESS + MEMORY_SIZE) v w with
    | none => simp
    | some x =>
      cases x with
      | error e => simp [Except.map]
      | ok p => simp [Except.map]

/-- C2 witness: concrete out-of-window address 0. -/
theorem C2_bus_bounds_witness :
    ((0 : Nat) < MEMORY_START_ADDRESS ∨
      (0 : Nat) > MEMORY_START_ADDRESS + MEMORY_SIZE) ∧
    (AVMBus.new.read 0 8 = some (.error (.AddressNotInMemoryBounds 0)) ∧
     AVMBus.new.write 0 5 8 = some (.error (.AddressNotInMemoryBounds 0)) ∧
     AVMBus.new.read (MEMORY_START_ADDRESS + MEMORY_SIZE) 8
       = AVMBus.new.memory.read (MEMORY_START_ADDRESS + MEMORY_SIZE) 8 ∧
     AVMBus.new.write (MEMORY_START_ADDRESS + MEMORY_SIZE) 5 8
       = (AVMBus.new.memory.write (MEMORY_START_ADDRESS + MEMORY_SIZE) 5 8).map
           (Except.map fun p => (⟨p.1⟩, p.2))) :=
  ⟨Or.inl (by decide), C2_bus_bounds AVMBus.new 0 5 8 (Or.inl (by decide))⟩

/-- C6: an instruction word whose top 16 bits match no defined opcode
yields `UnexpectedOpcode` carrying that value, with registers and IP
exactly as before the call. -/
theorem C6_unexpected_opcode (cpu : AVMCpu) (instr : Nat)
    (h : operationOf instr ∉ definedOpcodes) :
    execute_instr cpu instr = .err (.UnexpectedOpcode (operationOf instr)) cpu := by
  simp only [definedOpcodes, List.mem_cons, List.not_mem_nil, or_false, not_or] at h
  obtain ⟨h1, h2, h3, h4, h5, h6, h7, h8, h9, h10, h11, h12⟩ := h
  rw [execute_instr]
  simp only [h1, h2, h3, h4, h5, h6, h7, h8, h9, h10, h11, h12, if_false]

/-- C6 witness: the all-zero instruction word (opcode `0x0000`). -/
theorem C6_unexpected_opcode_witness :
    operationOf 0 ∉ definedOpcodes ∧
    execute_instr AVMCpu.new 0 = .err (.UnexpectedOpcode (operationOf 0)) AVMCpu.new :=
  ⟨by decide, C6_unexpected_opcode AVMCpu.new 0 (by decide)⟩

/-- C7: `load_instr` reads 64 bits from the Bus at IP; any failed read is
re-reported as `InstructionAccessFaultOnAddress(ip)` (never the raw Bus
fault), and a successful read returns the fetched word unchanged. -/
theorem C7_fetch_translation (cpu : AVMCpu) :
    (∀ e, cpu.bus.read cpu.ip 64 = some (.error e) →
      load_instr cpu = some (.error (.InstructionAccessFaultOnAddress cpu.ip))) ∧
    (∀ w, cpu.bus.read cpu.ip 64 = some (.ok w) → load_instr cpu = some (.ok w)) := by
  constructor
  · intro e he
    simp [load_instr, he]
  · intro w hw
    simp [load_instr, hw]

/-- C7 witness: a fetch at IP 0 faults in the Bus and is re-reported as
an instruction-access fault at 0; a fetch on a CPU whose memory actually
holds 8 bytes returns the word. -/
theorem C7_fetch_translation_witness :
    (({ AVMCpu.new with ip := 0 } : AVMCpu).bus.read 0 64
        = some (.error (.AddressNotInMemoryBounds 0)) ∧
     load_instr { AVMCpu.new with ip := 0 }
        = some (.error (.InstructionAccessFaultOnAddress 0))) ∧
    (({ AVMCpu.new with bus := ⟨⟨List.replicate 8 0⟩⟩ } : AVMCpu).bus.read
        MEMORY_START_ADDRESS 64 = some (.ok 0) ∧
     load_instr { AVMCpu.new with bus := ⟨⟨List.replicate 8 0⟩⟩ } = some (.ok 0)) :=
  ⟨⟨by rfl,
    (C7_fetch_translation { AVMCpu.new with ip := 0 }).1
      (.AddressNotInMemoryBounds 0) (by rfl)⟩,
   ⟨by rfl,
    (C7_fetch_translation { AVMCpu.new with bus := ⟨⟨List.replicate 8 0⟩⟩ }).2
      0 (by rfl)⟩⟩

/-- C8: for every width outside `{8,16,32,64}`, `Memory.read` and
`Memory.write` fail with `IllegalSizeArgument(w)` and no data access or
mutation happens (the size check comes first). -/
theorem C8_illegal_size (m : AVMMemory) (a v w : Nat)
    (h : w ≠ 8 ∧ w ≠ 16 ∧ w ≠ 32 ∧ w ≠ 64) :
    m.read a w = some (.error (.IllegalSizeArgument w)) ∧
    m.write a v w = some (.error (.IllegalSizeArgument w)) := by
  obtain ⟨h8, h16, h32, h64⟩ := h
  constructor
  · rw [AVMMemory.read, if_neg h8, if_neg h16, if_neg h32, if_neg h64]
  · rw [AVMMemory.write, if_neg h8, if_neg h16, if_neg h32, if_neg h64]

/-- C8 witness: width 7 is rejected. -/
theorem C8_illegal_size_witness :
    ((7 : Nat) ≠ 8 ∧ (7 : Nat) ≠ 16 ∧ (7 : Nat) ≠ 32 ∧ (7 : Nat) ≠ 64) ∧
    (AVMMemory.new.read MEMORY_START_ADDRESS 7
        = some (.error (.IllegalSizeArgument 7)) ∧
     AVMMemory.new.write MEMORY_START_ADDRESS 5 7
        = some (.error (.IllegalSizeArgument 7))) :=
  ⟨by decide, C8_illegal_size AVMMemory.new MEMORY_START_ADDRESS 5 7 (by decide)⟩

lemma and_255_eq_mod (x : Nat) : x &&& 255 = x % 256 := by
  have h := Nat.and_pow_two_sub_one_eq_mod x 8
  norm_num at h
  exact h

lemma shr_eq_div (x k : Nat) : x >>> k = x / 2 ^ k := Nat.shiftRight_eq_div_pow x k

lemma lor_shiftLeft_eq_add (x y k : Nat) (hx : x < 2 ^ k) :
    x ||| (y <<< k) = x + 2 ^ k * y := by
  rw [Nat.shiftLeft_eq, Nat.or_comm, Nat.mul_comm y (2 ^ k), ← Nat.mul_add_lt_is_or hx y]
  exact Nat.add_comm _ _

lemma recombine16 (v : Nat) :
    (v &&& 255) ||| (((v >>> 8) &&& 255) <<< 8) = v % 2 ^ 16 := by
  simp only [and_255_eq_mod, shr_eq_div]
  rw [lor_shiftLeft_eq_add (v % 256) (v / 2 ^ 8 % 256) 8 (by omega)]
  omega

lemma recombine32 (v : Nat) :
    (v &&& 255) ||| (((v >>> 8) &&& 255) <<< 8) ||| (((v >>> 16) &&& 255) <<< 16)
      ||| (((v >>> 24) &&& 255) <<< 24) = v % 2 ^ 32 := by
  simp only [and_255_eq_mod, shr_eq_div]
  rw [lor_shiftLeft_eq_add (v % 256) (v / 2 ^ 8 % 256) 8 (by omega)]
  rw [lor_shiftLeft_eq_add (v % 256 + 2 ^ 8 * (v / 2 ^ 8 % 256))
    (v / 2 ^ 16 % 256) 16 (by omega)]
  rw [lor_shiftLeft_eq_add
    (v % 256 + 2 ^ 8 * (v / 2 ^ 8 % 256) + 2 ^ 16 * (v / 2 ^ 16 % 256))
    (v / 2 ^ 24 % 256) 24 (by omega)]
  omega

lemma recombine64 (v : Nat) :
    (v &&& 255) ||| (((v >>> 8) &&& 255) <<< 8) ||| (((v >>> 16) &&& 255) <<< 16)
      ||| (((v >>> 24) &&& 255) <<< 24) ||| (((v >>> 32) &&& 255) <<< 32)
      ||| (((v >>> 40) &&& 255) <<< 40) ||| (((v >>> 48) &&& 255) <<< 48)
      ||| (((v >>> 56) &&& 255) <<< 56) = v % 2 ^ 64 := by
  simp only [and_255_eq_mod, shr_eq_div]
  rw [lor_shiftLeft_eq_add (v % 256) (v / 2 ^ 8 % 256) 8 (by omega)]
  rw [lor_shiftLeft_eq_add (v % 256 + 2 ^ 8 * (v / 2 ^ 8 % 256))
    (v / 2 ^ 16 % 256) 16 (by omega)]
  rw [lor_shiftLeft_eq_add
    (v % 256 + 2 ^ 8 * (v / 2 ^ 8 % 256) + 2 ^ 16 * (v / 2 ^ 16 % 256))
    (v / 2 ^ 24 % 256) 24 (by omega)]
  rw [lor_shiftLeft_eq_add
    (v % 256 + 2 ^ 8 * (v / 2 ^ 8 % 256) + 2 ^ 16 * (v / 2 ^ 16 % 256)
      + 2 ^ 24 * (v / 2 ^ 24 % 256))
    (v / 2 ^ 32 % 256) 32 (by omega)]
  rw [lor_shiftLeft_eq_add
    (v % 256 + 2 ^ 8 * (v / 2 ^ 8 % 256) + 2 ^ 16 * (v / 2 ^ 16 % 256)
      + 2 ^ 24 * (v / 2 ^ 24 % 256) + 2 ^ 32 * (v / 2 ^ 32 % 256))
    (v / 2 ^ 40 % 256) 40 (by omega)]
  rw [lor_shiftLeft_eq_add
    (v % 256 + 2 ^ 8 * (v / 2 ^ 8 % 256) + 2 ^ 16 * (v / 2 ^ 16 % 256)
      + 2 ^ 24 * (v / 2 ^ 24 % 256) + 2 ^ 32 * (v / 2 ^ 32 % 256)
      + 2 ^ 40 * (v / 2 ^ 40 % 256))
    (v / 2 ^ 48 % 256) 48 (by omega)]
  rw [lor_shiftLeft_eq_add
    (v % 256 + 2 ^ 8 * (v / 2 ^ 8 % 256) + 2 ^ 16 * (v / 2 ^ 16 % 256)
      + 2 ^ 24 * (v / 2 ^ 24 % 256) + 2 ^ 32 * (v / 2 ^ 32 % 256)
      + 2 ^ 40 * (v / 2 ^ 40 % 256) + 2 ^ 48 * (v / 2 ^ 48 % 256))
    (v / 2 ^ 56 % 256) 56 (by omega)]
  omega

/-- A successful run of sequential byte stores: succeeds exactly on
enough capacity, keeps the length, writes the given bytes in order and
leaves every other index untouched. -/
lemma setBytes_ok (vs : List Nat) (l : List Nat) (i : Nat)
    (h : i + vs.length ≤ l.length) :
    ∃ d, setBytes l i vs = some d ∧ d.length = l.length ∧
      (∀ k, k < vs.length → d[i + k]? = vs[k]?) ∧
      (∀ j, j < i ∨ i + vs.length ≤ j → d[j]? = l[j]?) := by
  induction vs generalizing l i with
  | nil =>
    exact ⟨l, rfl, rfl, fun k hk => absurd hk (by simp), fun j hj => rfl⟩
  | cons v rest ih =>
    have hi : i < l.length := by simp at h; omega
    have hstep : setByte l i v = some (l.set i v) := by rw [setByte, if_pos hi]
    obtain ⟨d, hd, hlen, hget, hframe⟩ := ih (l.set i v) (i + 1) (by simp at h ⊢; omega)
    refine ⟨d, ?_, by simpa using hlen, ?_, ?_⟩
    · simp only [setBytes, hstep]
      exact hd
    · intro k hk
      cases k with
      | zero =>
        rw [Nat.add_zero, hframe i (by omega), List.getElem?_set_self hi]
        simp
      | succ k2 =>
        rw [show i + (k2 + 1) = (i + 1) + k2 from by omega,
          hget k2 (by simp at hk; omega)]
        simp
    · intro j hj
      have hjl : j < i ∨ i + (rest.length + 1) ≤ j := by simpa using hj
      rw [hframe j (by omega)]
      exact List.getElem?_set_ne (by omega)

lemma roundtrip8 (m : AVMMemory) (a v : Nat)
    (h : a - MEMORY_START_ADDRESS + 1 ≤ m.data.length) :
    ∃ m' off, m.write_byte a v = some (m', off) ∧
      m'.load_byte a = some (v % 2 ^ 8) ∧
      m'.data.length = m.data.length ∧
      ∀ i, i < a - MEMORY_START_ADDRESS ∨ a - MEMORY_START_ADDRESS + 1 ≤ i →
        m'.data[i]? = m.data[i]? := by
  obtain ⟨d, hd, hlen, hget, hframe⟩ :=
    setBytes_ok [v % 256] m.data (a - MEMORY_START_ADDRESS) (by simpa using h)
  have h0 : d[a - MEMORY_START_ADDRESS]? = some (v % 256) := by
    have := hget 0 (by norm_num)
    simpa using this
  refine ⟨⟨d⟩, a - MEMORY_START_ADDRESS, ?_, ?_, hlen, ?_⟩
  · simp only [AVMMemory.write_byte, hd]
  · simp only [AVMMemory.load_byte, h0]
    norm_num
  · intro i hi
    exact hframe i (by simpa using hi)

lemma roundtrip16 (m : AVMMemory) (a v : Nat)
    (h : a - MEMORY_START_ADDRESS + 2 ≤ m.data.length) :
    ∃ m' off, m.write_short a v = some (m', off) ∧
      m'.load_short a = some (v % 2 ^ 16) ∧
      m'.data.length = m.data.length ∧
      ∀ i, i < a - MEMORY_START_ADDRESS ∨ a - MEMORY_START_ADDRESS + 2 ≤ i →
        m'.data[i]? = m.data[i]? := by
  obtain ⟨d, hd, hlen, hget, hframe⟩ :=
    setBytes_ok [v &&& 0xFF, (v >>> 8) &&& 0xFF] m.data (a - MEMORY_START_ADDRESS)
      (by simpa using h)
  have h0 : d[a - MEMORY_START_ADDRESS]? = some (v &&& 255) := by
    have := hget 0 (by norm_num)
    simpa using this
  have h1 : d[a - MEMORY_START_ADDRESS + 1]? = some ((v >>> 8) &&& 255) := by
    have := hget 1 (by norm_num)
    simpa using this
  refine ⟨⟨d⟩, a - MEMORY_START_ADDRESS, ?_, ?_, hlen, ?_⟩
  · simp only [AVMMemory.write_short, hd]
  · simp only [AVMMemory.load_short, h0, h1]
    exact congrArg some (recombine16 v)
  · intro i hi
    exact hframe i (by simpa using hi)

lemma roundtrip32 (m : AVMMemory) (a v : Nat)
    (h : a - MEMORY_START_ADDRESS + 4 ≤ m.data.length) :
    ∃ m' off, m.write_int a v = some (m', off) ∧
      m'.load_int a = some (v % 2 ^ 32) ∧
      m'.data.length = m.data.length ∧
      ∀ i, i < a - MEMORY_START_ADDRESS ∨ a - MEMORY_START_ADDRESS + 4 ≤ i →
        m'.data[i]? = m.data[i]? := by
  obtain ⟨d, hd, hlen, hget, hframe⟩ :=
    setBytes_ok [v &&& 0xFF, (v >>> 8) &&& 0xFF, (v >>> 16) &&& 0xFF,
      (v >>> 24) &&& 0xFF] m.data (a - MEMORY_START_ADDRESS) (by simpa using h)
  have h0 : d[a - MEMORY_START_ADDRESS]? = some (v &&& 255) := by
    have := hget 0 (by norm_num)
    simpa using this
  have h1 : d[a - MEMORY_START_ADDRESS + 1]? = some ((v >>> 8) &&& 255) := by
    have := hget 1 (by norm_num)
    simpa using this
  have h2 : d[a - MEMORY_START_ADDRESS + 2]? = some ((v >>> 16) &&& 255) := by
    have := hget 2 (by norm_num)
    simpa using this
  have h3 : d[a - MEMORY_START_ADDRESS + 3]? = some ((v >>> 24) &&& 255) := by
    have := hget 3 (by norm_num)
    simpa using this
  refine ⟨⟨d⟩, a - MEMORY_START_ADDRESS, ?_, ?_, hlen, ?_⟩
  · simp only [AVMMemory.write_int, hd]
  · simp only [AVMMemory.load_int, AVMMemory.int_load_util, h0, h1, h2, h3]
    exact congrArg some (recombine32 v)
  · intro i hi
    exact hframe i (by simpa using hi)

lemma roundtrip64 (m : AVMMemory) (a v : Nat)
    (h : a - MEMORY_START_ADDRESS + 8 ≤ m.data.length) :
    ∃ m' off, m.write_long a v = some (m', off) ∧
      m'.load_long a = some (v % 2 ^ 64) ∧
      m'.data.length = m.data.length ∧
      ∀ i, i < a - MEMORY_START_ADDRESS ∨ a - MEMORY_START_ADDRESS + 8 ≤ i →
        m'.data[i]? = m.data[i]? := by
  obtain ⟨d, hd, hlen, hget, hframe⟩ :=
    setBytes_ok [v &&& 0xFF, (v >>> 8) &&& 0xFF, (v >>> 16) &&& 0xFF,
      (v >>> 24) &&& 0xFF, (v >>> 32) &&& 0xFF, (v >>> 40) &&& 0xFF,
      (v >>> 48) &&& 0xFF, (v >>> 56) &&& 0xFF] m.data
      (a - MEMORY_START_ADDRESS) (by simpa using h)
  have h0 : d[a - MEMORY_START_ADDRESS]? = some (v &&& 255) := by
    have := hget 0 (by norm_num)
    simpa using this
  have h1 : d[a - MEMORY_START_ADDRESS + 1]? = some ((v >>> 8) &&& 255) := by
    have := hget 1 (by norm_num)
    simpa using this
  have h2 : d[a - MEMORY_START_ADDRESS + 2]? = some ((v >>> 16) &&& 255) := by
    have := hget 2 (by norm_num)
    simpa using this
  have h3 : d[a - MEMORY_START_ADDRESS + 3]? = some ((v >>> 24) &&& 255) := by
    have := hget 3 (by norm_num)
    simpa using this
  have h4 : d[a - MEMORY_START_ADDRESS + 4]? = some ((v >>> 32) &&& 255) := by
    have := hget 4 (by norm_num)
    simpa using this
  have h5 : d[a - MEMORY_START_ADDRESS + 5]? = some ((v >>> 40) &&& 255) := by
    have := hget 5 (by norm_num)
    simpa using this
  have h6 : d[a - MEMORY_START_ADDRESS + 6]? = some ((v >>> 48) &&& 255) := by
    have := hget 6 (by norm_num)
    simpa using this
  have h7 : d[a - MEMORY_START_ADDRESS + 7]? = some ((v >>> 56) &&& 255) := by
    have := hget 7 (by norm_num)
    simpa using this
  refine ⟨⟨d⟩, a - MEMORY_START_ADDRESS, ?_, ?_, hlen, ?_⟩
  · simp only [AVMMemory.write_long, hd]
  · simp only [AVMMemory.load_long, AVMMemory.int_load_util, h0, h1, h2, h3,
      h4, h5, h6, h7]
    exact congrArg some (recombine64 v)
  · intro i hi
    exact hframe i (by simpa using hi)

/-- C3: the claimed little-endian round-trip law is the evident intent of
the byte-level write/read algorithms, and it does hold on any store whose
vector actually covers the written range — but the shipped
`AVMMemory::new` builds the vector with `Vec::with_capacity`, which
leaves its length at 0, nothing ever fills it, and so every in-window
access of the program's store panics instead of round-tripping. -/
theorem C3_roundtrip_vs_uninitialized_store :
    (AVMMemory.new.data.length = 0 ∧
     AVMMemory.new.write MEMORY_START_ADDRESS 0xAB 8 = none ∧
     AVMMemory.new.read MEMORY_START_ADDRESS 8 = none) ∧
    (∀ (m : AVMMemory) (a v w : Nat),
      MEMORY_START_ADDRESS ≤ a → a ≤ MEMORY_START_ADDRESS + MEMORY_SIZE →
      (w = 8 ∨ w = 16 ∨ w = 32 ∨ w = 64) →
      a - MEMORY_START_ADDRESS + w / 8 ≤ m.data.length →
      ∃ m' off, m.write a v w = some (.ok (m', off)) ∧
        m'.read a w = some (.ok (v % 2 ^ w)) ∧
        m'.data.length = m.data.length ∧
        ∀ i, i < a - MEMORY_START_ADDRESS ∨ a - MEMORY_START_ADDRESS + w / 8 ≤ i →
          m'.data[i]? = m.data[i]?) := by
  refine ⟨⟨rfl, rfl, rfl⟩, ?_⟩
  intro m a v w ha1 ha2 hw hcap
  rcases hw with h | h | h <;> try subst h
  · obtain ⟨m', off, hwr, hrd, hlen, hfr⟩ := roundtrip8 m a v (by simpa using hcap)
    exact ⟨m', off, by simp [AVMMemory.write, hwr], by simp [AVMMemory.read, hrd],
      hlen, hfr⟩
  · obtain ⟨m', off, hwr, hrd, hlen, hfr⟩ := roundtrip16 m a v (by simpa using hcap)
    exact ⟨m', off, by simp [AVMMemory.write, hwr], by simp [AVMMemory.read, hrd],
      hlen, hfr⟩
  · rcases h with h | h <;> subst h
    · obtain ⟨m', off, hwr, hrd, hlen, hfr⟩ := roundtrip32 m a v (by simpa using hcap)
      exact ⟨m', off, by simp [AVMMemory.write, hwr], by simp [AVMMemory.read, hrd],
        hlen, hfr⟩
    · obtain ⟨m', off, hwr, hrd, hlen, hfr⟩ := roundtrip64 m a v (by simpa using hcap)
      exact ⟨m', off, by simp [AVMMemory.write, hwr], by simp [AVMMemory.read, hrd],
        hlen, hfr⟩

/-- C3 witness: the fresh store panics on an in-window byte write, while
a store whose vector holds 8 bytes round-trips `0xABCD` at width 16. -/
theorem C3_roundtrip_vs_uninitialized_store_witness :
    (AVMMemory.new.write MEMORY_START_ADDRESS 0xAB 8 = none) ∧
    (MEMORY_START_ADDRESS ≤ MEMORY_START_ADDRESS ∧
     MEMORY_START_ADDRESS ≤ MEMORY_START_ADDRESS + MEMORY_SIZE ∧
     ((16 : Nat) = 8 ∨ (16 : Nat) = 16 ∨ (16 : Nat) = 32 ∨ (16 : Nat) = 64) ∧
     MEMORY_START_ADDRESS - MEMORY_START_ADDRESS + 16 / 8 ≤
       (AVMMemory.mk (List.replicate 8 0)).data.length) ∧
    (∃ m' off,
      (AVMMemory.mk (List.replicate 8 0)).write MEMORY_START_ADDRESS 0xABCD 16
        = some (.ok (m', off)) ∧
      m'.read MEMORY_START_ADDRESS 16 = some (.ok (0xABCD % 2 ^ 16)) ∧
      m'.data.length = (AVMMemory.mk (List.replicate 8 0)).data.length ∧
      ∀ i, i < MEMORY_START_ADDRESS - MEMORY_START_ADDRESS ∨
          MEMORY_START_ADDRESS - MEMORY_START_ADDRESS + 16 / 8 ≤ i →
        m'.data[i]? = (AVMMemory.mk (List.replicate 8 0)).data[i]?) :=
  ⟨C3_roundtrip_vs_uninitialized_store.1.2.1,
   ⟨le_refl _, by decide, Or.inr (Or.inl rfl), by decide⟩,
   C3_roundtrip_vs_uninitialized_store.2 (AVMMemory.mk (List.replicate 8 0))
     MEMORY_START_ADDRESS 0xABCD 16 (le_refl _) (by decide)
     (Or.inr (Or.inl rfl)) (by decide)⟩

lemma eda1_lt (instr : Nat) : eda1 instr < 2 ^ 16 :=
  Nat.and_lt_two_pow _ (by norm_num)

lemma eda2_lt (instr : Nat) : eda2 instr < 2 ^ 16 :=
  Nat.and_lt_two_pow _ (by norm_num)

lemma eda3_lt (instr : Nat) : eda3 instr < 2 ^ 16 :=
  Nat.and_lt_two_pow _ (by norm_num)

/-- On the 16-bit-bounded jump targets the code's 36-bit mask
`0x000FFFFFFFFF` and the spec's 40-bit mask `0xFFFFFFFFFF` agree. -/
lemma mask36_eq_mask40 (x : Nat) (hx : x < 2 ^ 16) :
    x &&& 0x000FFFFFFFFF = x &&& 0xFFFFFFFFFF := by
  rw [show (0x000FFFFFFFFF : Nat) = 2 ^ 36 - 1 from rfl,
    show (0xFFFFFFFFFF : Nat) = 2 ^ 40 - 1 from rfl,
    Nat.and_pow_two_sub_one_of_lt_two_pow (lt_trans hx (by norm_num)),
    Nat.and_pow_two_sub_one_of_lt_two_pow (lt_trans hx (by norm_num))]

/-- C4: `jmc` decodes condition = high nibble of `cda1`, `reg1` = low
nibble of `cda1`, `reg2` = high nibble of `cda2`, and the target address
is `(eda1 | eda3 | eda2) & 0xFFFFFFFFFF`; with condition `0xC`, IP is set
to the target iff the two selected registers hold equal values, otherwise
IP is left unchanged (no increment either way); a condition nibble outside
`{0xA,…,0xE}` fails with `UnexpectedCondition(code)` without mutating
state. -/
theorem C4_jmc (cpu : AVMCpu) (instr v1 v2 : Nat)
    (hop : operationOf instr = 0xCF01)
    (hv1 : cpu.registers[cda1 instr &&& 0x0F]? = some v1)
    (hv2 : cpu.registers[cda2 instr >>> 4]? = some v2) :
    (cda1 instr >>> 4 = 0xC →
      execute_instr cpu instr =
        if v1 = v2 then
          .ok { cpu with
                ip := (eda1 instr ||| eda3 instr ||| eda2 instr) &&& 0xFFFFFFFFFF }
        else .ok cpu) ∧
    (cda1 instr >>> 4 ≠ 0xA → cda1 instr >>> 4 ≠ 0xB → cda1 instr >>> 4 ≠ 0xC →
     cda1 instr >>> 4 ≠ 0xD → cda1 instr >>> 4 ≠ 0xE →
      execute_instr cpu instr =
        .err (.UnexpectedCondition (cda1 instr >>> 4)) cpu) := by
  have hmask := mask36_eq_mask40 (eda1 instr ||| eda3 instr ||| eda2 instr)
    (Nat.or_lt_two_pow (Nat.or_lt_two_pow (eda1_lt instr) (eda3_lt instr)) (eda2_lt instr))
  constructor
  · intro hC
    simp [execute_instr, hop, hC, hv1, hv2, hmask]
  · intro hA hB hC hD hE
    simp [execute_instr, hop, hA, hB, hC, hD, hE]

/-- C4 witness: `jmc` with condition nibble `0xC` on two equal registers
of the fresh CPU takes the jump. -/
theorem C4_jmc_witness :
    operationOf 0xCF01C35000000000 = 0xCF01 ∧
    AVMCpu.new.registers[cda1 0xCF01C35000000000 &&& 0x0F]? = some 0 ∧
    AVMCpu.new.registers[cda2 0xCF01C35000000000 >>> 4]? = some 0 ∧
    (cda1 0xCF01C35000000000 >>> 4 = 0xC →
      execute_instr AVMCpu.new 0xCF01C35000000000 =
        if (0 : Nat) = 0 then
          .ok { AVMCpu.new with
                ip := (eda1 0xCF01C35000000000 ||| eda3 0xCF01C35000000000 |||
                  eda2 0xCF01C35000000000) &&& 0xFFFFFFFFFF }
        else .ok AVMCpu.new) :=
  ⟨by decide, by decide, by decide,
    (C4_jmc AVMCpu.new 0xCF01C35000000000 0 0 (by decide) (by decide) (by decide)).1⟩

/-- C5: `add`, `sub` and `mul` over register pairs store the result
modulo `2^64` in the destination register, always return `Ok` (never
fault) and increment IP by 1. -/
theorem C5_arith_wrapping (cpu : AVMCpu) (instr v1 v2 : Nat)
    (hlen : cpu.registers.length = 32)
    (h3 : cda3 instr < 32)
    (hv1 : cpu.registers[cda1 instr]? = some v1)
    (hv2 : cpu.registers[cda2 instr]? = some v2)
    (hb1 : v1 < 2 ^ 64) (hb2 : v2 < 2 ^ 64) :
    (operationOf instr = 0xCD02 →
      execute_instr cpu instr =
        .ok { cpu with
              registers := cpu.registers.set (cda3 instr) ((v1 + v2) % 2 ^ 64)
              ip := cpu.ip + 1 }) ∧
    (operationOf instr = 0xCD03 →
      ∃ r, execute_instr cpu instr =
          .ok { cpu with registers := cpu.registers.set (cda3 instr) r
                         ip := cpu.ip + 1 } ∧
        (r : Int) = ((v1 : Int) - (v2 : Int)) % 2 ^ 64) ∧
    (operationOf instr = 0xCD04 →
      execute_instr cpu instr =
        .ok { cpu with
              registers := cpu.registers.set (cda3 instr) (v1 * v2 % 2 ^ 64)
              ip := cpu.ip + 1 }) := by
  refine ⟨?_, ?_, ?_⟩
  · intro hop
    simp [execute_instr, hop, hv1, hv2, hlen, h3, wrapping_add64]
  · intro hop
    refine ⟨wrapping_sub64 v1 v2, ?_, ?_⟩
    · simp [execute_instr, hop, hv1, hv2, hlen, h3]
    · simp only [wrapping_sub64]
      omega
  · intro hop
    simp [execute_instr, hop, hv1, hv2, hlen, h3, wrapping_mul64]

/-- C5 witness: adding 1 to the maximum unsigned 64-bit value on a
concrete CPU (registers 0 and 1 hold `2^64 - 1` and 1). -/
theorem C5_arith_wrapping_witness :
    (let cpu : AVMCpu :=
      { AVMCpu.new with
        registers := ((List.replicate 32 0).set 0 (2 ^ 64 - 1)).set 1 1 }
     cpu.registers.length = 32 ∧
     cda3 0xCD02000102000000 < 32 ∧
     cpu.registers[cda1 0xCD02000102000000]? = some (2 ^ 64 - 1) ∧
     cpu.registers[cda2 0xCD02000102000000]? = some 1 ∧
     2 ^ 64 - 1 < 2 ^ 64 ∧ (1 : Nat) < 2 ^ 64 ∧
     (operationOf 0xCD02000102000000 = 0xCD02 →
      execute_instr cpu 0xCD02000102000000 =
        .ok { cpu with
              registers := cpu.registers.set (cda3 0xCD02000102000000)
                ((2 ^ 64 - 1 + 1) % 2 ^ 64)
              ip := cpu.ip + 1 })) :=
  ⟨by decide, by decide, by decide, by decide, by decide, by decide,
    (C5_arith_wrapping _ 0xCD02000102000000 (2 ^ 64 - 1) 1 (by decide) (by decide)
      (by decide) (by decide) (by decide) (by decide)).1⟩

/-- C9: for the load (`0xCD06`) and store (`0xCD07`) opcodes, every
failure of the underlying Bus call — whatever its fault kind, including
`AddressNotInMemoryBounds` — is reported by `execute_instr` as
`IllegalSizeArgument(size)`, and registers and IP are left unchanged. -/
theorem C9_load_store_fault_masking (cpu : AVMCpu) (instr : Nat) :
    (operationOf instr = 0xCD06 → ∀ e,
      cpu.bus.read (eda2 instr ||| eda3 instr) (cda2 instr) = some (.error e) →
      execute_instr cpu instr = .err (.IllegalSizeArgument (cda2 instr)) cpu) ∧
    (operationOf instr = 0xCD07 → ∀ v e,
      cpu.registers[cda1 instr]? = some v →
      cpu.bus.write (eda2 instr ||| eda3 instr) v (cda2 instr) = some (.error e) →
      execute_instr cpu instr = .err (.IllegalSizeArgument (cda2 instr)) cpu) := by
  constructor
  · intro hop e he
    simp [execute_instr, hop, he]
  · intro hop v e hv hw
    simp [execute_instr, hop, hv, hw]

/-- C9 witness: a load at bus address 0 (out of the window) with a legal
width 8 faults in the Bus with `AddressNotInMemoryBounds`, which the load
handler reports as `IllegalSizeArgument(8)`. -/
theorem C9_load_store_fault_masking_witness :
    operationOf 0xCD06000800000000 = 0xCD06 ∧
    AVMCpu.new.bus.read (eda2 0xCD06000800000000 ||| eda3 0xCD06000800000000)
      (cda2 0xCD06000800000000) = some (.error (.AddressNotInMemoryBounds 0)) ∧
    execute_instr AVMCpu.new 0xCD06000800000000 =
      .err (.IllegalSizeArgument (cda2 0xCD06000800000000)) AVMCpu.new :=
  ⟨by decide, by rfl,
    (C9_load_store_fault_masking AVMCpu.new 0xCD06000800000000).1 (by decide)
      (.AddressNotInMemoryBounds 0) (by rfl)⟩

/-- C10: every Bus-facing address `execute_instr` builds from the
extended fields — the `jmp` target `eda1 | eda2 | eda3`, the masked `jmc`
target and the load/store address `eda2 | eda3` — is at most `0xFFFF`,
strictly below `MEMORY_START_ADDRESS`; hence a fetch at such an IP
faults with `InstructionAccessFaultOnAddress`, a taken `jmp` always
lands there, a taken `jmc` leaves IP either unchanged or at most
`0xFFFF`, and the Bus rejects every access at such an address as out of
bounds. -/
theorem C10_targets_below_window (cpu : AVMCpu) (instr : Nat) :
    eda1 instr ||| eda2 instr ||| eda3 instr ≤ 0xFFFF ∧
    (eda1 instr ||| eda3 instr ||| eda2 instr) &&& 0x000FFFFFFFFF ≤ 0xFFFF ∧
    eda2 instr ||| eda3 instr ≤ 0xFFFF ∧
    (0xFFFF : Nat) < MEMORY_START_ADDRESS ∧
    (cpu.ip ≤ 0xFFFF →
      load_instr cpu = some (.error (.InstructionAccessFaultOnAddress cpu.ip))) ∧
    (∀ a v w, a ≤ 0xFFFF →
      cpu.bus.read a w = some (.error (.AddressNotInMemoryBounds a)) ∧
      cpu.bus.write a v w = some (.error (.AddressNotInMemoryBounds a))) ∧
    (operationOf instr = 0xCF00 →
      ∃ cpu', execute_instr cpu instr = .ok cpu' ∧ cpu'.ip ≤ 0xFFFF ∧
        load_instr cpu' = some (.error (.InstructionAccessFaultOnAddress cpu'.ip))) ∧
    (operationOf instr = 0xCF01 → ∀ cpu', execute_instr cpu instr = .ok cpu' →
      cpu'.ip = cpu.ip ∨ cpu'.ip ≤ 0xFFFF) := by
  have h123 : eda1 instr ||| eda2 instr ||| eda3 instr < 2 ^ 16 :=
    Nat.or_lt_two_pow (Nat.or_lt_two_pow (eda1_lt instr) (eda2_lt instr)) (eda3_lt instr)
  have h132 : (eda1 instr ||| eda3 instr ||| eda2 instr) &&& 0x000FFFFFFFFF ≤ 0xFFFF := by
    have := Nat.or_lt_two_pow (Nat.or_lt_two_pow (eda1_lt instr) (eda3_lt instr))
      (eda2_lt instr)
    have hle := Nat.and_le_left
      (n := eda1 instr ||| eda3 instr ||| eda2 instr) (m := 0x000FFFFFFFFF)
    omega
  have h23 : eda2 instr ||| eda3 instr < 2 ^ 16 :=
    Nat.or_lt_two_pow (eda2_lt instr) (eda3_lt instr)
  have hbusg : ∀ (b : AVMBus) a v w, a ≤ 0xFFFF →
      b.read a w = some (.error (.AddressNotInMemoryBounds a)) ∧
      b.write a v w = some (.error (.AddressNotInMemoryBounds a)) := by
    intro b a v w ha
    have hlt : a < MEMORY_START_ADDRESS := by
      rw [MEMORY_START_ADDRESS]; omega
    constructor
    · rw [AVMBus.read, if_pos (Or.inl hlt)]
    · rw [AVMBus.write, if_pos (Or.inl hlt)]
  have hfetch : ∀ c : AVMCpu, c.ip ≤ 0xFFFF →
      load_instr c = some (.error (.InstructionAccessFaultOnAddress c.ip)) := by
    intro c hip
    rw [load_instr, (hbusg c.bus c.ip 0 64 hip).1]
  refine ⟨by omega, h132, by omega, by rw [MEMORY_START_ADDRESS]; omega,
    hfetch cpu, hbusg cpu.bus, ?_, ?_⟩
  · intro hop
    refine ⟨{ cpu with ip := eda1 instr ||| eda2 instr ||| eda3 instr }, ?_, ?_, ?_⟩
    · simp [execute_instr, hop]
    · show eda1 instr ||| eda2 instr ||| eda3 instr ≤ 0xFFFF
      omega
    · exact hfetch _ (by show eda1 instr ||| eda2 instr ||| eda3 instr ≤ 0xFFFF; omega)
  · intro hop cpu' h
    simp only [execute_instr, hop] at h
    norm_num at h
    repeat' split at h
    all_goals cases h
    all_goals first
      | exact Or.inl rfl
      | exact Or.inr h132

/-- C10 witness: the `jmp` word with target `0x1234` lands IP below the
window, and the next fetch faults. -/
theorem C10_targets_below_window_witness :
    operationOf 0xCF00000000001234 = 0xCF00 ∧
    ∃ cpu', execute_instr AVMCpu.new 0xCF00000000001234 = .ok cpu' ∧
      cpu'.ip ≤ 0xFFFF ∧
      load_instr cpu' = some (.error (.InstructionAccessFaultOnAddress cpu'.ip)) :=
  ⟨by decide,
    (C10_targets_below_window AVMCpu.new 0xCF00000000001234).2.2.2.2.2.2.1 (by decide)⟩

/-- C1 counterexample: the `move` handler (opcode `0xCD00`) indexes the
32-slot register file with the full 8-bit `cda1` field; the word
`0xCD00200000000000` has `cda1 = 32`, so the register access goes out of
bounds (a Rust panic), refuting the claim that every register-file index
used by an accepted instruction lies in `0..31`. -/
theorem C1_counterexample_oob_register :
    operationOf 0xCD00200000000000 = 0xCD00 ∧
    cda1 0xCD00200000000000 = 32 ∧
    AVMCpu.new.registers.length = 32 ∧
    execute_instr AVMCpu.new 0xCD00200000000000 = .panic :=
  ⟨by decide, by decide, by decide, by rfl⟩

/-- C1 amended: on a 32-slot register file, the nibble-derived `jmc`
indices are at most 15 and always in bounds (`jmc` never panics); the
compact fields `cda1/cda2/cda3` are only bounded by `0..255`, and the
register accesses of the cda-indexed opcodes go out of bounds (panic)
exactly when a field the opcode actually uses is 32 or more — `move`:
`cda1` or `cda2`; `set`: `cda1`; `add`/`sub`/`mul`: any of the three;
`div`: any of the three, or additionally when the divisor register holds
0. -/
theorem C1_register_index_bounds (cpu : AVMCpu) (instr : Nat)
    (hlen : cpu.registers.length = 32) :
    cda1 instr < 256 ∧ cda2 instr < 256 ∧ cda3 instr < 256 ∧
    cda1 instr &&& 0x0F < 32 ∧ cda2 instr >>> 4 < 32 ∧
    (operationOf instr = 0xCF01 → execute_instr cpu instr ≠ .panic) ∧
    (operationOf instr = 0xCD00 →
      (execute_instr cpu instr = .panic ↔
        32 ≤ cda1 instr ∨ 32 ≤ cda2 instr)) ∧
    (operationOf instr = 0xCD01 →
      (execute_instr cpu instr = .panic ↔ 32 ≤ cda1 instr)) ∧
    ((operationOf instr = 0xCD02 ∨ operationOf instr = 0xCD03 ∨
      operationOf instr = 0xCD04) →
      (execute_instr cpu instr = .panic ↔
        32 ≤ cda1 instr ∨ 32 ≤ cda2 instr ∨ 32 ≤ cda3 instr)) ∧
    (operationOf instr = 0xCD05 →
      (execute_instr cpu instr = .panic ↔
        32 ≤ cda1 instr ∨ 32 ≤ cda2 instr ∨ 32 ≤ cda3 instr ∨
          cpu.registers[cda2 instr]? = some 0)) := by
  have hc1 : cda1 instr < 256 := by
    have h := Nat.and_le_right (n := instr >>> 32) (m := 0x0000FF00)
    rw [cda1, Nat.shiftRight_eq_div_pow]
    omega
  have hc2 : cda2 instr < 256 := by
    have h := Nat.and_le_right (n := instr >>> 32) (m := 0x000000FF)
    rw [cda2]
    omega
  have hc3 : cda3 instr < 256 := by
    have h := Nat.and_le_right (n := instr >>> 24) (m := 0x00000000FF)
    rw [cda3]
    omega
  have hn1 : cda1 instr &&& 0x0F < 32 := by
    have h := Nat.and_le_right (n := cda1 instr) (m := 0x0F)
    omega
  have hn2 : cda2 instr >>> 4 < 32 := by
    rw [Nat.shiftRight_eq_div_pow]
    omega
  refine ⟨hc1, hc2, hc3, hn1, hn2, ?_, ?_, ?_, ?_, ?_⟩
  · intro hop
    obtain ⟨w1, hw1⟩ : ∃ x, cpu.registers[cda1 instr &&& 0x0F]? = some x :=
      ⟨_, List.getElem?_eq_getElem (by omega)⟩
    obtain ⟨w2, hw2⟩ : ∃ x, cpu.registers[cda2 instr >>> 4]? = some x :=
      ⟨_, List.getElem?_eq_getElem (by omega)⟩
    simp only [execute_instr, hop]
    norm_num
    rw [hw1, hw2]
    repeat' split
    all_goals simp
  · intro hop
    by_cases h1 : cda1 instr < 32
    · obtain ⟨w1, hw1⟩ : ∃ x, cpu.registers[cda1 instr]? = some x :=
        ⟨_, List.getElem?_eq_getElem (by omega)⟩
      by_cases h2 : cda2 instr < 32
      · simp [execute_instr, hop, hw1, hlen, h2]
        all_goals omega
      · simp [execute_instr, hop, hw1, hlen, h2]
        all_goals omega
    · have hw1 : cpu.registers[cda1 instr]? = none :=
        List.getElem?_eq_none (by omega)
      simp [execute_instr, hop, hw1]
      all_goals omega
  · intro hop
    by_cases h1 : cda1 instr < 32
    · simp [execute_instr, hop, hlen, h1]
    · simp [execute_instr, hop, hlen, h1]
      all_goals omega
  · intro hop
    rcases hop with hop | hop | hop
    all_goals (
      by_cases h1 : cda1 instr < 32
      · obtain ⟨w1, hw1⟩ : ∃ x, cpu.registers[cda1 instr]? = some x :=
          ⟨_, List.getElem?_eq_getElem (by omega)⟩
        by_cases h2 : cda2 instr < 32
        · obtain ⟨w2, hw2⟩ : ∃ x, cpu.registers[cda2 instr]? = some x :=
            ⟨_, List.getElem?_eq_getElem (by omega)⟩
          by_cases h3 : cda3 instr < 32
          · simp [execute_instr, hop, hw1, hw2, hlen, h3]
            all_goals omega
          · simp [execute_instr, hop, hw1, hw2, hlen, h3]
            all_goals omega
        · have hw2 : cpu.registers[cda2 instr]? = none :=
            List.getElem?_eq_none (by omega)
          simp [execute_instr, hop, hw1, hw2]
          all_goals omega
      · have hw1 : cpu.registers[cda1 instr]? = none :=
          List.getElem?_eq_none (by omega)
        simp [execute_instr, hop, hw1]
        all_goals omega)
  · intro hop
    by_cases h1 : cda1 instr < 32
    · obtain ⟨w1, hw1⟩ : ∃ x, cpu.registers[cda1 instr]? = some x :=
        ⟨_, List.getElem?_eq_getElem (by omega)⟩
      by_cases h2 : cda2 instr < 32
      · obtain ⟨w2, hw2⟩ : ∃ x, cpu.registers[cda2 instr]? = some x :=
          ⟨_, List.getElem?_eq_getElem (by omega)⟩
        by_cases hz : w2 = 0
        · subst hz
          simp [execute_instr, hop, hw1, hw2]
        · by_cases h3 : cda3 instr < 32
          · simp [execute_instr, hop, hw1, hw2, hlen, hz, h3]
            all_goals omega
          · simp [execute_instr, hop, hw1, hw2, hlen, hz, h3]
            all_goals omega
      · have hw2 : cpu.registers[cda2 instr]? = none :=
          List.getElem?_eq_none (by omega)
        simp [execute_instr, hop, hw1, hw2]
        all_goals omega
    · have hw1 : cpu.registers[cda1 instr]? = none :=
        List.getElem?_eq_none (by omega)
      simp [execute_instr, hop, hw1]
      all_goals omega

/-- C1 amended witness: a `set` word with `cda1 = 40` panics on the
fresh CPU, and a concrete `jmc` word does not panic. -/
theorem C1_register_index_bounds_witness :
    AVMCpu.new.registers.length = 32 ∧
    operationOf 0xCD01280000000000 = 0xCD01 ∧
    execute_instr AVMCpu.new 0xCD01280000000000 = .panic ∧
    operationOf 0xCF01A35000000000 = 0xCF01 ∧
    execute_instr AVMCpu.new 0xCF01A35000000000 ≠ .panic :=
  ⟨by decide, by decide,
    ((C1_register_index_bounds AVMCpu.new 0xCD01280000000000
        (by decide)).2.2.2.2.2.2.2.1 (by decide)).mpr (by decide),
    by decide,
    (C1_register_index_bounds AVMCpu.new 0xCF01A35000000000
        (by decide)).2.2.2.2.2.1 (by decide)⟩

end AetherVM
